import Mathlib

/-!
Verification development for the wgpu-openxr-example repository.

The Rust sources are shallowly embedded into Lean:
f32 arithmetic is modelled by exact real arithmetic, the glam linear-algebra
types (Vec3, Vec4, Quat, Mat3, Mat4, Affine3A) become structures of reals with
the exact formulas of the glam crate, and the stateful OpenXR frame protocol
(src/xr.rs) becomes a pure transition system that records every call made to
the OpenXR runtime as an element of an explicit call trace.
-/

namespace WgpuXr

noncomputable section

/-- Embedding of glam Vec3 (components as exact reals). -/
structure Vec3 where
  x : ℝ
  y : ℝ
  z : ℝ

attribute [ext] Vec3

/-- Embedding of glam Vec4. -/
structure Vec4 where
  x : ℝ
  y : ℝ
  z : ℝ
  w : ℝ

attribute [ext] Vec4

/-- Embedding of glam Quat, components x y z w as in glam. -/
structure Quat where
  x : ℝ
  y : ℝ
  z : ℝ
  w : ℝ

attribute [ext] Quat

/-- Embedding of glam Mat3 as three column vectors. -/
structure Mat3 where
  x_axis : Vec3
  y_axis : Vec3
  z_axis : Vec3

attribute [ext] Mat3

/-- Embedding of glam Mat4 as four column vectors (column-major, as in glam). -/
structure Mat4 where
  x_axis : Vec4
  y_axis : Vec4
  z_axis : Vec4
  w_axis : Vec4

attribute [ext] Mat4

def Vec3.add (a b : Vec3) : Vec3 := ⟨a.x + b.x, a.y + b.y, a.z + b.z⟩

def Vec3.sub (a b : Vec3) : Vec3 := ⟨a.x - b.x, a.y - b.y, a.z - b.z⟩

def Vec3.smul (k : ℝ) (a : Vec3) : Vec3 := ⟨k * a.x, k * a.y, k * a.z⟩

def Vec3.neg (a : Vec3) : Vec3 := ⟨-a.x, -a.y, -a.z⟩

def Vec3.dot (a b : Vec3) : ℝ := a.x * b.x + a.y * b.y + a.z * b.z

/-- Cross product, exactly glam Vec3 cross. -/
def Vec3.cross (a b : Vec3) : Vec3 :=
  ⟨a.y * b.z - a.z * b.y, a.z * b.x - a.x * b.z, a.x * b.y - a.y * b.x⟩

/-- Normalisation, glam: self * length_recip where length = sqrt (dot self self). -/
def Vec3.normalize (a : Vec3) : Vec3 :=
  Vec3.smul (Real.sqrt (Vec3.dot a a))⁻¹ a

def Vec3.zero : Vec3 := ⟨0, 0, 0⟩

def Vec3.one : Vec3 := ⟨1, 1, 1⟩

def Vec3.unit_y : Vec3 := ⟨0, 1, 0⟩

def Vec3.unit_z : Vec3 := ⟨0, 0, 1⟩

def Vec4.add (a b : Vec4) : Vec4 := ⟨a.x + b.x, a.y + b.y, a.z + b.z, a.w + b.w⟩

def Vec4.smul (k : ℝ) (a : Vec4) : Vec4 := ⟨k * a.x, k * a.y, k * a.z, k * a.w⟩

def Vec4.neg (a : Vec4) : Vec4 := ⟨-a.x, -a.y, -a.z, -a.w⟩

/-- Quaternion Hamilton product, exactly glam Quat mul_quat. -/
def Quat.mul (q r : Quat) : Quat :=
  ⟨q.w * r.x + q.x * r.w + q.y * r.z - q.z * r.y,
   q.w * r.y - q.x * r.z + q.y * r.w + q.z * r.x,
   q.w * r.z + q.x * r.y - q.y * r.x + q.z * r.w,
   q.w * r.w - q.x * r.x - q.y * r.y - q.z * r.z⟩

/-- Embedding of glam Quat::from_rotation_x: (sin (angle/2), 0, 0, cos (angle/2)). -/
def Quat.from_rotation_x (angle : ℝ) : Quat :=
  ⟨Real.sin (angle * 0.5), 0, 0, Real.cos (angle * 0.5)⟩

/-- Rotation of a vector by a quaternion, exactly glam Quat mul_vec3
(scalar path): rhs*(w*w - dot b b) + b*(dot rhs b * 2) + cross b rhs * (w*2). -/
def Quat.mul_vec3 (q : Quat) (v : Vec3) : Vec3 :=
  let b : Vec3 := ⟨q.x, q.y, q.z⟩
  Vec3.add
    (Vec3.add (Vec3.smul (q.w * q.w - Vec3.dot b b) v)
      (Vec3.smul (Vec3.dot v b * 2) b))
    (Vec3.smul (q.w * 2) (Vec3.cross b v))

def Quat.identity : Quat := ⟨0, 0, 0, 1⟩

def Quat.neg (q : Quat) : Quat := ⟨-q.x, -q.y, -q.z, -q.w⟩

/-- Matrix-vector product for a column-major Mat4, exactly glam mul_vec4. -/
def Mat4.mul_vec4 (m : Mat4) (v : Vec4) : Vec4 :=
  Vec4.add
    (Vec4.add (Vec4.smul v.x m.x_axis) (Vec4.smul v.y m.y_axis))
    (Vec4.add (Vec4.smul v.z m.z_axis) (Vec4.smul v.w m.w_axis))

/-- Matrix product, exactly glam Mat4 mul_mat4 (columns of the right factor
mapped through the left factor). -/
def Mat4.mul (m n : Mat4) : Mat4 :=
  ⟨m.mul_vec4 n.x_axis, m.mul_vec4 n.y_axis, m.mul_vec4 n.z_axis, m.mul_vec4 n.w_axis⟩

/-- Embedding of glam Mat4 to_cols_array: the 16 entries in column-major order. -/
def Mat4.to_cols_array (m : Mat4) : List ℝ :=
  [m.x_axis.x, m.x_axis.y, m.x_axis.z, m.x_axis.w,
   m.y_axis.x, m.y_axis.y, m.y_axis.z, m.y_axis.w,
   m.z_axis.x, m.z_axis.y, m.z_axis.z, m.z_axis.w,
   m.w_axis.x, m.w_axis.y, m.w_axis.z, m.w_axis.w]

/-- Embedding of glam Mat4::look_to_lh. -/
def Mat4.look_to_lh (eye dir up : Vec3) : Mat4 :=
  let f := dir.normalize
  let s := (up.cross f).normalize
  let u := f.cross s
  ⟨⟨s.x, u.x, f.x, 0⟩,
   ⟨s.y, u.y, f.y, 0⟩,
   ⟨s.z, u.z, f.z, 0⟩,
   ⟨-(eye.dot s), -(eye.dot u), -(eye.dot f), 1⟩⟩

/-- Embedding of glam Mat4::look_to_rh = look_to_lh with the direction negated. -/
def Mat4.look_to_rh (eye dir up : Vec3) : Mat4 :=
  Mat4.look_to_lh eye dir.neg up

/-- Embedding of glam Mat4::look_at_rh. -/
def Mat4.look_at_rh (eye center up : Vec3) : Mat4 :=
  Mat4.look_to_rh eye (center.sub eye) up

/-- Embedding of glam Mat4::perspective_rh (right-handed, depth 0..1). -/
def Mat4.perspective_rh (fov_y_radians aspect_ratio z_near z_far : ℝ) : Mat4 :=
  let sin_fov := Real.sin (0.5 * fov_y_radians)
  let cos_fov := Real.cos (0.5 * fov_y_radians)
  let h := cos_fov / sin_fov
  let w := h / aspect_ratio
  let r := z_far / (z_near - z_far)
  ⟨⟨w, 0, 0, 0⟩,
   ⟨0, h, 0, 0⟩,
   ⟨0, 0, r, -1⟩,
   ⟨0, 0, r * z_near, 0⟩⟩

/-- Embedding of glam Mat3::from_quat (standard quaternion-to-matrix formula,
exactly the glam source). -/
def Mat3.from_quat (q : Quat) : Mat3 :=
  let x2 := q.x + q.x
  let y2 := q.y + q.y
  let z2 := q.z + q.z
  let xx := q.x * x2
  let xy := q.x * y2
  let xz := q.x * z2
  let yy := q.y * y2
  let yz := q.y * z2
  let zz := q.z * z2
  let wx := q.w * x2
  let wy := q.w * y2
  let wz := q.w * z2
  ⟨⟨1 - (yy + zz), xy + wz, xz - wy⟩,
   ⟨xy - wz, 1 - (xx + zz), yz + wx⟩,
   ⟨xz + wy, yz - wx, 1 - (xx + yy)⟩⟩

/-- Embedding of glam Affine3A (a 3x3 matrix plus a translation column). -/
structure Affine3A where
  matrix3 : Mat3
  translation : Vec3

/-- Embedding of glam Affine3A::from_scale_rotation_translation: the rotation
matrix columns scaled per-axis by the scale components. -/
def Affine3A.from_scale_rotation_translation (scale : Vec3) (rotation : Quat)
    (translation : Vec3) : Affine3A :=
  let r := Mat3.from_quat rotation
  ⟨⟨Vec3.smul scale.x r.x_axis, Vec3.smul scale.y r.y_axis, Vec3.smul scale.z r.z_axis⟩,
   translation⟩

/-- Embedding of Mat4::from(Affine3A): the 3x3 columns extended by 0, the
translation extended by 1. -/
def Mat4.from_affine (a : Affine3A) : Mat4 :=
  ⟨⟨a.matrix3.x_axis.x, a.matrix3.x_axis.y, a.matrix3.x_axis.z, 0⟩,
   ⟨a.matrix3.y_axis.x, a.matrix3.y_axis.y, a.matrix3.y_axis.z, 0⟩,
   ⟨a.matrix3.z_axis.x, a.matrix3.z_axis.y, a.matrix3.z_axis.z, 0⟩,
   ⟨a.translation.x, a.translation.y, a.translation.z, 1⟩⟩

/-- Embedding of f32::to_radians: multiplication by pi/180. -/
def to_radians (x : ℝ) : ℝ := x * (Real.pi / 180)

/-! ## OpenXR value types (openxr crate structs used by the sources) -/

/-- Embedding of openxr Vector3f. -/
structure Vector3f where
  x : ℝ
  y : ℝ
  z : ℝ

/-- Embedding of openxr Quaternionf. -/
structure Quaternionf where
  x : ℝ
  y : ℝ
  z : ℝ
  w : ℝ

/-- Embedding of openxr Posef: an orientation quaternion and a position. -/
structure Posef where
  orientation : Quaternionf
  position : Vector3f

/-- Embedding of xr::Posef::IDENTITY: identity orientation, zero position. -/
def Posef.identity : Posef := ⟨⟨0, 0, 0, 1⟩, ⟨0, 0, 0⟩⟩

/-- Embedding of openxr Fovf: the four per-eye field-of-view half-angles. -/
structure Fovf where
  angle_left : ℝ
  angle_right : ℝ
  angle_up : ℝ
  angle_down : ℝ

/-- Embedding of openxr View: a pose and a field of view. -/
structure XrView where
  pose : Posef
  fov : Fovf

/-! ## src/xr.rs: openxr_pose_to_glam (lines 25-33) -/

/-- Embedding of openxr_pose_to_glam (src/xr.rs lines 25-33): rotation is
Quat::from_rotation_x(180 degrees) * quat(o.w, o.z, o.y, o.x); translation is
(-x, y, -z). Returns (translation, rotation) exactly as the source. -/
def openxr_pose_to_glam (pose : Posef) : Vec3 × Quat :=
  let rotation :=
    Quat.mul (Quat.from_rotation_x (to_radians 180))
      ⟨pose.orientation.w, pose.orientation.z, pose.orientation.y, pose.orientation.x⟩
  let translation : Vec3 := ⟨-pose.position.x, pose.position.y, -pose.position.z⟩
  (translation, rotation)

/-! ## src/camera.rs: PerspectiveCamera (lines 4-88) -/

/-- Embedding of PerspectiveCamera (src/camera.rs lines 4-14). -/
structure PerspectiveCamera where
  eye : Vec3
  target : Vec3
  up : Vec3
  aspect_ratio : ℝ
  fov_y_rad : ℝ
  z_near : ℝ
  z_far : ℝ

/-- Interpupillary distance constant of src/camera.rs to_view_proj_matrices
(line 17): let ipd = 63.0 / 1_000.0. -/
def camera_ipd : ℝ := 63.0 / 1000

/-- Embedding of PerspectiveCamera::to_view_proj_matrices (src/camera.rs lines
16-30): one look-at view and one symmetric perspective projection; the view is
laterally offset by -ipd/2 and +ipd/2 (w_axis += view * offset) and each offset
view is multiplied by the same projection; the two column-major matrices are
concatenated. -/
def PerspectiveCamera.to_view_proj_matrices (c : PerspectiveCamera) : List ℝ :=
  let offset : Vec4 := ⟨camera_ipd / 2, 0, 0, 0⟩
  let view := Mat4.look_at_rh c.eye c.target c.up
  let proj := Mat4.perspective_rh c.fov_y_rad c.aspect_ratio c.z_near c.z_far
  (([offset.neg, offset]).map (fun o =>
    (proj.mul { view with w_axis := view.w_axis.add (view.mul_vec4 o) }).to_cols_array)).flatten

/-- Coordinate-convention rotation computed inline in
to_view_proj_matrices_with_xr_views (src/camera.rs lines 41-44):
Quat::from_rotation_x(180 degrees) * quat(o.w, o.z, o.y, o.x). -/
def camera_xr_rotation (pose : Posef) : Quat :=
  Quat.mul (Quat.from_rotation_x (to_radians 180))
    ⟨pose.orientation.w, pose.orientation.z, pose.orientation.y, pose.orientation.x⟩

/-- Coordinate-convention translation computed inline in
to_view_proj_matrices_with_xr_views (src/camera.rs lines 45-46):
vec3(-x, y, -z). -/
def camera_xr_translation (pose : Posef) : Vec3 :=
  ⟨-pose.position.x, pose.position.y, -pose.position.z⟩

/-- View matrix of one XR eye (src/camera.rs lines 48-52): a look-at from the
camera eye shifted by the converted pose translation, towards the converted
rotation applied to +Z, with the converted rotation applied to +Y as up. -/
def camera_xr_view (c : PerspectiveCamera) (pose : Posef) : Mat4 :=
  let xr_rotation := camera_xr_rotation pose
  let xr_translation := camera_xr_translation pose
  Mat4.look_at_rh (c.eye.add xr_translation)
    ((c.eye.add xr_translation).add (xr_rotation.mul_vec3 Vec3.unit_z))
    (xr_rotation.mul_vec3 Vec3.unit_y)

/-- Asymmetric off-axis projection of one XR eye (src/camera.rs lines 54-78),
built from the tangents of the four field-of-view half-angles; entries a11,
a22, a31, a32, a33, a43 and -1 in the w row, column-major via
Mat4::from_cols_array. -/
def camera_xr_proj (fov : Fovf) (z_near z_far : ℝ) : Mat4 :=
  let tan_left := Real.tan fov.angle_left
  let tan_right := Real.tan fov.angle_right
  let tan_down := Real.tan fov.angle_down
  let tan_up := Real.tan fov.angle_up
  let tan_width := tan_right - tan_left
  let tan_height := tan_up - tan_down
  let a11 := 2 / tan_width
  let a22 := 2 / tan_height
  let a31 := (tan_right + tan_left) / tan_width
  let a32 := (tan_up + tan_down) / tan_height
  let a33 := -z_far / (z_far - z_near)
  let a43 := -(z_far * z_near) / (z_far - z_near)
  ⟨⟨a11, 0, 0, 0⟩,
   ⟨0, a22, 0, 0⟩,
   ⟨a31, a32, a33, -1⟩,
   ⟨0, 0, a43, 0⟩⟩

/-- Embedding of PerspectiveCamera::to_view_proj_matrices_with_xr_views
(src/camera.rs lines 33-83): for each view, the asymmetric projection times the
per-eye look-at view, flattened column-major. The per-view lets of the source
are factored into camera_xr_view and camera_xr_proj. -/
def PerspectiveCamera.to_view_proj_matrices_with_xr_views (c : PerspectiveCamera)
    (views : List XrView) : List ℝ :=
  views.flatMap (fun v =>
    ((camera_xr_proj v.fov c.z_near c.z_far).mul (camera_xr_view c v.pose)).to_cols_array)

/-! ## src/main.rs: duplicate PerspectiveCamera variant (lines 685-714) -/

/-- Interpupillary distance constant of the main.rs to_view_proj_matrices
variant (src/main.rs line 697): let ipd = 68.3 / 1_000.0. -/
def main_ipd : ℝ := 68.3 / 1000

/-- Embedding of the duplicate PerspectiveCamera::to_view_proj_matrices in
src/main.rs (lines 696-713): identical structure to the camera.rs version but
with ipd = 68.3mm and the two offset views written out explicitly. -/
def main_to_view_proj_matrices (c : PerspectiveCamera) : List ℝ :=
  let offset : Vec4 := ⟨main_ipd / 2, 0, 0, 0⟩
  let view := Mat4.look_at_rh c.eye c.target c.up
  let proj := Mat4.perspective_rh c.fov_y_rad c.aspect_ratio c.z_near c.z_far
  let view_l := { view with w_axis := view.w_axis.add (view.mul_vec4 offset.neg) }
  let view_r := { view with w_axis := view.w_axis.add (view.mul_vec4 offset) }
  (proj.mul view_l).to_cols_array ++ (proj.mul view_r).to_cols_array

/-- Lateral offset of a view matrix used to state the stereo-pair property:
the w_axis shifted by d times the view's local X axis column. -/
def Mat4.lateral_offset (m : Mat4) (d : ℝ) : Mat4 :=
  { m with w_axis := m.w_axis.add (Vec4.smul d m.x_axis) }

/-! ## src/xr.rs: XrState and the per-frame protocol (lines 35-595)

The protocol methods are embedded as pure transition functions over the fields
they touch (session_running, the lazily created swapchain, and the cached view
configuration), with every call made to the OpenXR runtime recorded in an
explicit call trace, and with the runtime's responses (polled events, the frame
state from frame_wait.wait, action activity, located poses, the acquired image
index) supplied as oracle inputs. -/

/-- Session states distinguished by the match in pre_frame (src/xr.rs lines
345-358); all other states fall into the wildcard arm. -/
inductive SessionState
| ready
| stopping
| exiting
| loss_pending
| other_state
deriving DecidableEq

/-- Events distinguished by the match in pre_frame (src/xr.rs lines 340-367);
all other events fall into the wildcard arm. -/
inductive XrEvent
| session_state_changed (s : SessionState)
| instance_loss_pending
| events_lost (n : Nat)
| other_event
deriving DecidableEq

/-- Identifies one of the two tracked hands. -/
inductive Hand
| left
| right
deriving DecidableEq

/-- Calls issued by the embedded methods to the OpenXR runtime and the blitter.
frameEnd records the display time passed to frame_stream.end and the number of
composition layers submitted (0 for the empty list, 1 for the single projection
layer). -/
inductive XrCall
| sessionBegin
| sessionEnd
| frameWait
| frameBegin
| frameEnd (time : Int) (layer_count : Nat)
| createSwapchain
| syncActions
| locateSpace (h : Hand)
| locateViews (time : Int)
| acquireImage
| waitImage
| releaseImage
| blit (image_index : Nat)
deriving DecidableEq

/-- Embedding of the Swapchain struct (src/xr.rs lines 591-595): the resolution
chosen at creation; the runtime handle and buffer textures are runtime objects
with no further observable content at this level. -/
structure Swapchain where
  width : Nat
  height : Nat
deriving DecidableEq

/-- Fields of XrState (src/xr.rs lines 35-51) read or written by pre_frame,
post_frame and post_queue_submit: the session_running flag, the lazily created
swapchain, and the recommended image size of views[0] (the constructor asserts
views[0] = views[1], src/xr.rs line 308). -/
structure XrSt where
  session_running : Bool
  view_width : Nat
  view_height : Nat
  swapchain : Option Swapchain
deriving DecidableEq

/-- Embedding of xr::FrameState as used by the sources: the predicted display
time and the should_render flag returned by frame_wait.wait. -/
structure FrameState where
  predicted_display_time : Int
  should_render : Bool
deriving DecidableEq

/-- Embedding of PostFrameData (src/xr.rs lines 18-23). -/
structure PostFrameData where
  views : List XrView
  left_hand : Option (Vec3 × Quat)
  right_hand : Option (Vec3 × Quat)

/-- Embedding of PostFrameData::default(): empty view list, no hand poses. -/
def PostFrameData.default : PostFrameData := ⟨[], none, none⟩

/-- Result of the event-draining loop at the top of pre_frame: the updated
state, the events left unconsumed in the runtime queue (nonempty only when the
loop returned early), the session calls issued, and whether pre_frame returned
Ok(None) from inside the loop (EXITING, LOSS_PENDING or InstanceLossPending). -/
structure EventsOut where
  st : XrSt
  remaining : List XrEvent
  calls : List XrCall
  aborted : Bool

/-- Embedding of the while-let poll_event loop of pre_frame (src/xr.rs lines
338-368): READY triggers session.begin and sets session_running; STOPPING
triggers session.end and clears it; EXITING, LOSS_PENDING and
InstanceLossPending return early leaving the rest of the queue unconsumed;
EventsLost and all other events are ignored. -/
def process_events : XrSt → List XrEvent → EventsOut
| s, [] => ⟨s, [], [], false⟩
| s, XrEvent.session_state_changed SessionState.ready :: rest =>
  let r := process_events { s with session_running := true } rest
  ⟨r.st, r.remaining, XrCall.sessionBegin :: r.calls, r.aborted⟩
| s, XrEvent.session_state_changed SessionState.stopping :: rest =>
  let r := process_events { s with session_running := false } rest
  ⟨r.st, r.remaining, XrCall.sessionEnd :: r.calls, r.aborted⟩
| s, XrEvent.session_state_changed SessionState.exiting :: rest => ⟨s, rest, [], true⟩
| s, XrEvent.session_state_changed SessionState.loss_pending :: rest => ⟨s, rest, [], true⟩
| s, XrEvent.session_state_changed SessionState.other_state :: rest => process_events s rest
| s, XrEvent.instance_loss_pending :: rest => ⟨s, rest, [], true⟩
| s, XrEvent.events_lost _ :: rest => process_events s rest
| s, XrEvent.other_event :: rest => process_events s rest

/-- Result of pre_frame: updated state, unconsumed events, call trace, and the
returned Option of a frame state. -/
structure PreFrameOut where
  st : XrSt
  remaining : List XrEvent
  calls : List XrCall
  result : Option FrameState

/-- Embedding of XrState::pre_frame (src/xr.rs lines 337-383): drain the event
queue; if the loop returned early or the session is not running, return None
with no frame calls; otherwise call frame_wait.wait (whose response fs is an
oracle input) followed by frame_stream.begin and return Some fs. -/
def pre_frame (s : XrSt) (events : List XrEvent) (fs : FrameState) : PreFrameOut :=
  let eo := process_events s events
  if eo.aborted then ⟨eo.st, eo.remaining, eo.calls, none⟩
  else if eo.st.session_running = false then ⟨eo.st, eo.remaining, eo.calls, none⟩
  else ⟨eo.st, eo.remaining, eo.calls ++ [XrCall.frameWait, XrCall.frameBegin], some fs⟩

/-- Embedding of the swapchain get_or_insert_with in post_frame (src/xr.rs
lines 402-492): reuse the existing swapchain, or create one sized by the
recommended image rect of views[0] and record the creation. -/
def get_or_insert_swapchain (s : XrSt) : XrSt × List XrCall × Swapchain :=
  match s.swapchain with
  | some sc => (s, [], sc)
  | none =>
    let sc : Swapchain := ⟨s.view_width, s.view_height⟩
    ({ s with swapchain := some sc }, [XrCall.createSwapchain], sc)

/-- Oracle inputs consumed by post_frame: whether each hand's pose action is
active, the located pose of each hand space, the located per-eye views, and the
swapchain image index chosen by the runtime. -/
structure PostFrameEnv where
  left_active : Bool
  right_active : Bool
  left_pose : Posef
  right_pose : Posef
  located_views : List XrView
  image_index : Nat

/-- Result of post_frame: updated state, call trace, and the PostFrameData
returned to the caller. -/
structure PostFrameOut where
  st : XrSt
  calls : List XrCall
  data : PostFrameData

/-- Embedding of XrState::post_frame (src/xr.rs lines 385-537). If
should_render is false: end the frame immediately with the predicted display
time and an empty layer list and return PostFrameData::default(). Otherwise:
get-or-create the swapchain, sync actions, locate each hand space only if its
action is active (locate_hand_pose, lines 495-510), locate the per-eye views,
acquire and wait on a swapchain image, and record the blit into that image. -/
def post_frame (s : XrSt) (fs : FrameState) (env : PostFrameEnv) : PostFrameOut :=
  if fs.should_render = false then
    ⟨s, [XrCall.frameEnd fs.predicted_display_time 0], PostFrameData.default⟩
  else
    let g := get_or_insert_swapchain s
    let left_hand := if env.left_active then some (openxr_pose_to_glam env.left_pose) else none
    let right_hand := if env.right_active then some (openxr_pose_to_glam env.right_pose) else none
    ⟨g.1,
     g.2.1 ++ [XrCall.syncActions]
       ++ (if env.left_active then [XrCall.locateSpace Hand.left] else [])
       ++ (if env.right_active then [XrCall.locateSpace Hand.right] else [])
       ++ [XrCall.locateViews fs.predicted_display_time, XrCall.acquireImage,
           XrCall.waitImage, XrCall.blit env.image_index],
     ⟨env.located_views, left_hand, right_hand⟩⟩

/-- Result of post_queue_submit: updated state and call trace. -/
structure PQSOut where
  st : XrSt
  calls : List XrCall

/-- Embedding of XrState::post_queue_submit (src/xr.rs lines 539-584): if a
swapchain exists, release the acquired image and end the frame with the single
projection layer (two projection views referencing array layers 0 and 1);
otherwise do nothing. -/
def post_queue_submit (s : XrSt) (fs : FrameState) (views : List XrView) : PQSOut :=
  match s.swapchain with
  | none => ⟨s, []⟩
  | some _ => ⟨s, [XrCall.releaseImage, XrCall.frameEnd fs.predicted_display_time 1]⟩

/-- Oracle inputs of one frame tick of the render loop: the events pending in
the runtime queue, the frame state frame_wait.wait would return, and the
post_frame oracles. -/
structure TickEnv where
  events : List XrEvent
  fs : FrameState
  pf_env : PostFrameEnv

/-- Result of one frame tick. -/
structure TickOut where
  st : XrSt
  remaining : List XrEvent
  calls : List XrCall

/-- Modelled from the spec: the per-frame driver of the render loop
(XrFrameCoordinator protocol, spec section 4.6; the final main.rs frame loop is
not among the sources, which contain an earlier variant without
post_queue_submit). One tick calls pre_frame; when it returns a frame state,
post_frame runs; when should_render is true the frame is finished by
post_queue_submit with the views post_frame returned, otherwise post_frame
already ended it. -/
def frame_tick (s : XrSt) (e : TickEnv) : TickOut :=
  let p := pre_frame s e.events e.fs
  match p.result with
  | none => ⟨p.st, p.remaining, p.calls⟩
  | some fs =>
    let po := post_frame p.st fs e.pf_env
    if fs.should_render then
      let q := post_queue_submit po.st fs po.data.views
      ⟨q.st, p.remaining, p.calls ++ po.calls ++ q.calls⟩
    else
      ⟨po.st, p.remaining, p.calls ++ po.calls⟩

/-- Result of a run of frame ticks: final state and concatenated call trace. -/
structure RunOut where
  st : XrSt
  calls : List XrCall

/-- Modelled from the spec: the render loop as iterated frame ticks. -/
def run_ticks : XrSt → List TickEnv → RunOut
| s, [] => ⟨s, []⟩
| s, e :: rest =>
  let t := frame_tick s e
  let r := run_ticks t.st rest
  ⟨r.st, t.calls ++ r.calls⟩

/-- Selects the compositor frame-boundary calls (frame_stream.begin and
frame_stream.end) out of a call trace. -/
def is_frame_boundary : XrCall → Bool
| XrCall.frameBegin => true
| XrCall.frameEnd _ _ => true
| _ => false

/-- Selects the session lifecycle calls (session.begin and session.end) out of
a call trace. -/
def is_session_call : XrCall → Bool
| XrCall.sessionBegin => true
| XrCall.sessionEnd => true
| _ => false

/-- Perfect begin/end pairing of a compositor trace: the projection of a call
trace onto frame boundaries is an alternation frameBegin, frameEnd,
frameBegin, frameEnd, ... with exactly one end after each begin. -/
inductive BeginEndPaired : List XrCall → Prop
| nil : BeginEndPaired []
| pair (t : Int) (n : Nat) (rest : List XrCall) :
    BeginEndPaired rest →
    BeginEndPaired (XrCall.frameBegin :: XrCall.frameEnd t n :: rest)

/-- Tick whose event queue is empty, used to state the session scenario of the
spec (a running frame between the Ready and Stopping events). -/
def running_tick (p : FrameState × PostFrameEnv) : TickEnv := ⟨[], p.1, p.2⟩

/-! ## src/blit_state.rs: the presentation blitter sampler (lines 35-43) -/

/-- Embedding of wgpu FilterMode. -/
inductive FilterMode
| nearest
| linear
deriving DecidableEq

/-- Embedding of wgpu AddressMode (the variants the sources mention). -/
inductive AddressMode
| clamp_to_edge
deriving DecidableEq

/-- Embedding of the wgpu SamplerDescriptor fields set by BlitState::new. -/
structure SamplerDescriptor where
  address_mode_u : AddressMode
  address_mode_v : AddressMode
  address_mode_w : AddressMode
  mag_filter : FilterMode
  min_filter : FilterMode
  mipmap_filter : FilterMode
deriving DecidableEq

/-- Embedding of the sampler descriptor of BlitState::new (src/blit_state.rs
lines 35-43; the identical duplicate is src/main.rs lines 423-431):
clamp-to-edge addressing, mag_filter Linear, min_filter Nearest, mipmap_filter
Nearest. -/
def blit_sampler_descriptor : SamplerDescriptor :=
  { address_mode_u := AddressMode.clamp_to_edge
    address_mode_v := AddressMode.clamp_to_edge
    address_mode_w := AddressMode.clamp_to_edge
    mag_filter := FilterMode.linear
    min_filter := FilterMode.nearest
    mipmap_filter := FilterMode.nearest }

/-! ## src/main_state.rs: instance data (lines 106-125) -/

/-- Embedding of MainState::instances_to_data (src/main_state.rs lines
113-125; identical duplicate src/main.rs lines 287-299): each (translation,
rotation) pair becomes the column-major array of
Mat4::from(Affine3A::from_scale_rotation_translation(Vec3::ONE, r, t)). -/
def instances_to_data (poses : List (Vec3 × Quat)) : List ℝ :=
  poses.flatMap (fun p =>
    (Mat4.from_affine
      (Affine3A.from_scale_rotation_translation Vec3.one p.2 p.1)).to_cols_array)

/-- A queue.write_buffer command: target offset and data written. -/
structure BufferWrite where
  offset : Nat
  data : List ℝ

/-- Embedding of MainState::upload_instances (src/main_state.rs lines 106-112;
identical duplicate src/main.rs lines 280-286): one write_buffer of the full
instance data at offset 0. -/
def upload_instances (instances : List (Vec3 × Quat)) : BufferWrite :=
  ⟨0, instances_to_data instances⟩

end

/-! ## Helper lemmas -/

theorem post_frame_not_render (s : XrSt) (fs : FrameState) (env : PostFrameEnv)
    (h : fs.should_render = false) :
    post_frame s fs env
      = ⟨s, [XrCall.frameEnd fs.predicted_display_time 0], PostFrameData.default⟩ := by
  simp [post_frame, h]

theorem instance_block_eq (t : Vec3) (q : Quat) :
    (Mat4.from_affine (Affine3A.from_scale_rotation_translation Vec3.one q t)).to_cols_array
    = [1 - 2*q.y^2 - 2*q.z^2, 2*q.x*q.y + 2*q.w*q.z, 2*q.x*q.z - 2*q.w*q.y, 0,
       2*q.x*q.y - 2*q.w*q.z, 1 - 2*q.x^2 - 2*q.z^2, 2*q.y*q.z + 2*q.w*q.x, 0,
       2*q.x*q.z + 2*q.w*q.y, 2*q.y*q.z - 2*q.w*q.x, 1 - 2*q.x^2 - 2*q.y^2, 0,
       t.x, t.y, t.z, 1] := by
  simp only [Mat4.to_cols_array, Mat4.from_affine, Affine3A.from_scale_rotation_translation,
    Mat3.from_quat, Vec3.smul, Vec3.one, List.cons.injEq, and_true]
  and_intros <;> ring

theorem instances_to_data_length (poses : List (Vec3 × Quat)) :
    (instances_to_data poses).length = 16 * poses.length := by
  induction poses with
  | nil => simp [instances_to_data]
  | cons p l ih =>
    simp only [instances_to_data, List.flatMap_cons, List.length_append, List.length_cons]
    simp only [instances_to_data] at ih
    rw [ih]
    simp [Mat4.to_cols_array]
    ring

/-! ## Claim theorems: pure math -/

/-- Claim C6: openxr_pose_to_glam maps the identity pose (identity orientation,
zero position) to zero translation together with a quaternion equal to plus or
minus the identity quaternion (hence representing the identity rotation). -/
theorem claim_C6_identity_pose :
    (openxr_pose_to_glam Posef.identity).1 = Vec3.zero ∧
      ((openxr_pose_to_glam Posef.identity).2 = Quat.identity ∨
        (openxr_pose_to_glam Posef.identity).2 = Quat.neg Quat.identity) := by
  constructor
  · simp [openxr_pose_to_glam, Posef.identity, Vec3.zero]
  · right
    have h : to_radians 180 * 0.5 = Real.pi / 2 := by
      unfold to_radians; ring
    simp [openxr_pose_to_glam, Posef.identity, Quat.identity, Quat.neg, Quat.mul,
      Quat.from_rotation_x, h, Real.sin_pi_div_two, Real.cos_pi_div_two]

/-- Claim C7: the coordinate-convention correction computed inline in
to_view_proj_matrices_with_xr_views equals openxr_pose_to_glam on every pose
(rotation and translation components alike): the conversion is one pure
function, invariant across the two call sites. -/
theorem claim_C7_conversion_shared :
    ∀ p : Posef,
      camera_xr_rotation p = (openxr_pose_to_glam p).2 ∧
        camera_xr_translation p = (openxr_pose_to_glam p).1 :=
  fun _ => ⟨rfl, rfl⟩

/-- Claim C9 counterexample: the blit sampler descriptor does not have linear
minification with nearest magnification; the code sets the opposite pair. -/
theorem claim_C9_counterexample :
    ¬ (blit_sampler_descriptor.min_filter = FilterMode.linear ∧
        blit_sampler_descriptor.mag_filter = FilterMode.nearest) := by
  decide

/-- Claim C9 (amended): the blit sampler performs linear magnification and
nearest minification (mag_filter Linear, min_filter Nearest, mipmap_filter
Nearest). -/
theorem claim_C9_sampler_filters :
    blit_sampler_descriptor.mag_filter = FilterMode.linear ∧
      blit_sampler_descriptor.min_filter = FilterMode.nearest ∧
      blit_sampler_descriptor.mipmap_filter = FilterMode.nearest := by
  decide

/-- Claim C10: instances_to_data produces exactly 16 floats per (translation,
rotation) pair, the column-major 4x4 affine matrix with unit scale (the
rotation matrix columns unscaled, the translation in entries 12..14, the
homogeneous row 0,0,0,1), and upload_instances always rewrites the whole
instance buffer from offset 0. -/
theorem claim_C10_instance_data :
    ∀ poses : List (Vec3 × Quat),
      (instances_to_data poses).length = 16 * poses.length ∧
      instances_to_data poses = poses.flatMap (fun p =>
        [1 - 2*p.2.y^2 - 2*p.2.z^2, 2*p.2.x*p.2.y + 2*p.2.w*p.2.z,
         2*p.2.x*p.2.z - 2*p.2.w*p.2.y, 0,
         2*p.2.x*p.2.y - 2*p.2.w*p.2.z, 1 - 2*p.2.x^2 - 2*p.2.z^2,
         2*p.2.y*p.2.z + 2*p.2.w*p.2.x, 0,
         2*p.2.x*p.2.z + 2*p.2.w*p.2.y, 2*p.2.y*p.2.z - 2*p.2.w*p.2.x,
         1 - 2*p.2.x^2 - 2*p.2.y^2, 0,
         p.1.x, p.1.y, p.1.z, 1]) ∧
      upload_instances poses = ⟨0, instances_to_data poses⟩ := by
  intro poses
  refine ⟨instances_to_data_length poses, ?_, rfl⟩
  induction poses with
  | nil => simp [instances_to_data]
  | cons p l ih =>
    simp only [instances_to_data, List.flatMap_cons] at *
    rw [ih, instance_block_eq]

theorem mul_vec4_x_offset (m : Mat4) (d : ℝ) :
    m.mul_vec4 ⟨d, 0, 0, 0⟩ = Vec4.smul d m.x_axis := by
  simp only [Mat4.mul_vec4, Vec4.smul, Vec4.add]
  ext <;> ring

theorem mul_vec4_x_offset_neg (m : Mat4) (d : ℝ) :
    m.mul_vec4 (Vec4.neg ⟨d, 0, 0, 0⟩) = Vec4.smul (-d) m.x_axis := by
  simp only [Mat4.mul_vec4, Vec4.smul, Vec4.add, Vec4.neg]
  ext <;> ring

theorem offset_view_eq (m : Mat4) (d : ℝ) :
    ({ m with w_axis := m.w_axis.add (m.mul_vec4 ⟨d, 0, 0, 0⟩) } : Mat4)
      = m.lateral_offset d := by
  simp only [Mat4.lateral_offset, mul_vec4_x_offset]

theorem offset_view_eq_neg (m : Mat4) (d : ℝ) :
    ({ m with w_axis := m.w_axis.add (m.mul_vec4 (Vec4.neg ⟨d, 0, 0, 0⟩)) } : Mat4)
      = m.lateral_offset (-d) := by
  simp only [Mat4.lateral_offset, mul_vec4_x_offset_neg]

theorem to_cols_array_length (m : Mat4) : m.to_cols_array.length = 16 := by
  simp [Mat4.to_cols_array]

theorem lateral_offset_pair (m : Mat4) (d : ℝ) :
    (m.lateral_offset d).x_axis = (m.lateral_offset (-d)).x_axis ∧
      (m.lateral_offset d).y_axis = (m.lateral_offset (-d)).y_axis ∧
      (m.lateral_offset d).z_axis = (m.lateral_offset (-d)).z_axis ∧
      (m.lateral_offset d).w_axis
        = ((m.lateral_offset (-d)).w_axis).add (Vec4.smul (2 * d) m.x_axis) := by
  refine ⟨rfl, rfl, rfl, ?_⟩
  simp only [Mat4.lateral_offset, Vec4.add, Vec4.smul]
  ext <;> ring

/-- Claim C4 counterexample: the interpupillary-distance constant used by the
main.rs variant of to_view_proj_matrices is 68.3mm, which is outside the
63-68mm range the claim asserts. -/
theorem claim_C4_counterexample :
    main_ipd = 68.3 / 1000 ∧
      ¬ ((63:ℝ)/1000 ≤ main_ipd ∧ main_ipd ≤ (68:ℝ)/1000) := by
  constructor
  · rfl
  · norm_num [main_ipd]

/-- Claim C4 (amended): both to_view_proj_matrices variants return exactly 2
view-projection matrices (32 contiguous floats), each the shared symmetric
projection times the shared look-at view laterally offset by minus and plus
half of a fixed per-variant interpupillary distance along the view's local X
axis, so the two views differ only by a lateral translation of the full ipd
and the projection factor is identical; the constant is 63.0mm in camera.rs and
68.3mm in the main.rs variant (63-68.3mm, not 63-68mm). -/
theorem claim_C4_stereo_pair (c : PerspectiveCamera) :
    (c.to_view_proj_matrices).length = 32 ∧
      (main_to_view_proj_matrices c).length = 32 ∧
      c.to_view_proj_matrices
        = ((Mat4.perspective_rh c.fov_y_rad c.aspect_ratio c.z_near c.z_far).mul
            ((Mat4.look_at_rh c.eye c.target c.up).lateral_offset
              (-(camera_ipd / 2)))).to_cols_array
          ++ ((Mat4.perspective_rh c.fov_y_rad c.aspect_ratio c.z_near c.z_far).mul
            ((Mat4.look_at_rh c.eye c.target c.up).lateral_offset
              (camera_ipd / 2))).to_cols_array ∧
      main_to_view_proj_matrices c
        = ((Mat4.perspective_rh c.fov_y_rad c.aspect_ratio c.z_near c.z_far).mul
            ((Mat4.look_at_rh c.eye c.target c.up).lateral_offset
              (-(main_ipd / 2)))).to_cols_array
          ++ ((Mat4.perspective_rh c.fov_y_rad c.aspect_ratio c.z_near c.z_far).mul
            ((Mat4.look_at_rh c.eye c.target c.up).lateral_offset
              (main_ipd / 2))).to_cols_array ∧
      (∀ (m : Mat4) (d : ℝ),
        (m.lateral_offset (d / 2)).x_axis = (m.lateral_offset (-(d / 2))).x_axis ∧
          (m.lateral_offset (d / 2)).y_axis = (m.lateral_offset (-(d / 2))).y_axis ∧
          (m.lateral_offset (d / 2)).z_axis = (m.lateral_offset (-(d / 2))).z_axis ∧
          (m.lateral_offset (d / 2)).w_axis
            = ((m.lateral_offset (-(d / 2))).w_axis).add (Vec4.smul d m.x_axis)) ∧
      camera_ipd = 63.0 / 1000 ∧ main_ipd = 68.3 / 1000 := by
  have hcam : c.to_view_proj_matrices
      = ((Mat4.perspective_rh c.fov_y_rad c.aspect_ratio c.z_near c.z_far).mul
          ((Mat4.look_at_rh c.eye c.target c.up).lateral_offset
            (-(camera_ipd / 2)))).to_cols_array
        ++ ((Mat4.perspective_rh c.fov_y_rad c.aspect_ratio c.z_near c.z_far).mul
          ((Mat4.look_at_rh c.eye c.target c.up).lateral_offset
            (camera_ipd / 2))).to_cols_array := by
    simp only [PerspectiveCamera.to_view_proj_matrices, List.map, List.flatten,
      offset_view_eq, offset_view_eq_neg, List.append_nil]
  have hmain : main_to_view_proj_matrices c
      = ((Mat4.perspective_rh c.fov_y_rad c.aspect_ratio c.z_near c.z_far).mul
          ((Mat4.look_at_rh c.eye c.target c.up).lateral_offset
            (-(main_ipd / 2)))).to_cols_array
        ++ ((Mat4.perspective_rh c.fov_y_rad c.aspect_ratio c.z_near c.z_far).mul
          ((Mat4.look_at_rh c.eye c.target c.up).lateral_offset
            (main_ipd / 2))).to_cols_array := by
    simp only [main_to_view_proj_matrices, offset_view_eq, offset_view_eq_neg]
  refine ⟨?_, ?_, hcam, hmain, ?_, rfl, rfl⟩
  · rw [hcam]
    simp [to_cols_array_length]
  · rw [hmain]
    simp [to_cols_array_length]
  · intro m d
    have h := lateral_offset_pair m (d / 2)
    refine ⟨h.1, h.2.1, h.2.2.1, ?_⟩
    rw [h.2.2.2, show 2 * (d / 2) = d by ring]

theorem tan_ne_zero_sin {b : ℝ} (h : Real.tan b ≠ 0) : Real.sin b ≠ 0 := by
  intro hs; exact h (by rw [Real.tan_eq_sin_div_cos, hs, zero_div])

theorem tan_ne_zero_cos {b : ℝ} (h : Real.tan b ≠ 0) : Real.cos b ≠ 0 := by
  intro hc; exact h (by rw [Real.tan_eq_sin_div_cos, hc, div_zero])

theorem two_div_double (t : ℝ) : 2 / (t + t) = 1 / t := by
  rw [← two_mul, div_mul_eq_div_div]
  norm_num

/-- Claim C5: for a symmetric field of view (angle_left = -angle_right,
angle_down = -angle_up) the asymmetric projection built inside
to_view_proj_matrices_with_xr_views coincides with the symmetric
Mat4::perspective_rh of the desktop path, taken at the equal vertical FOV
(2 * angle_up) and the matching aspect ratio tan(angle_right)/tan(angle_up).
The pose plays no role in the projection factor, so this covers in particular
every view with identity pose. -/
theorem claim_C5_projection_convergence (a b z_near z_far : ℝ)
    (hb : Real.tan b ≠ 0) :
    camera_xr_proj ⟨-a, a, b, -b⟩ z_near z_far
      = Mat4.perspective_rh (2 * b) (Real.tan a / Real.tan b) z_near z_far := by
  have hsb := tan_ne_zero_sin hb
  have hcb := tan_ne_zero_cos hb
  have harg : (0.5 : ℝ) * (2 * b) = b := by ring
  simp only [camera_xr_proj, Mat4.perspective_rh, harg, Real.tan_neg, sub_neg_eq_add,
    Mat4.mk.injEq, Vec4.mk.injEq]
  have hheight : 2 / (Real.tan b + Real.tan b) = Real.cos b / Real.sin b := by
    rw [two_div_double, Real.tan_eq_sin_div_cos, one_div_div]
  have hwidth : 2 / (Real.tan a + Real.tan a)
      = Real.cos b / Real.sin b / (Real.tan a / Real.tan b) := by
    rw [two_div_double]
    rcases eq_or_ne (Real.tan a) 0 with h0 | h0
    · simp [h0]
    · have hsa := tan_ne_zero_sin h0
      have hca := tan_ne_zero_cos h0
      rw [Real.tan_eq_sin_div_cos, Real.tan_eq_sin_div_cos]
      field_simp
      ring
  have hmid : Real.tan a + -Real.tan a = 0 := by ring
  have hmid2 : Real.tan b + -Real.tan b = 0 := by ring
  have h33 : -z_far / (z_far - z_near) = z_far / (z_near - z_far) := by
    rw [show z_near - z_far = -(z_far - z_near) by ring, div_neg, neg_div]
  have h43 : -(z_far * z_near) / (z_far - z_near)
      = z_far / (z_near - z_far) * z_near := by
    rw [show z_near - z_far = -(z_far - z_near) by ring, div_neg, neg_mul,
      div_mul_eq_mul_div, neg_div]
  simp [hwidth, hheight, h33, h43, hmid, hmid2, zero_div]

/-- Claim C5 witness: at angle pi/4 for both half-angles and near 1, far 2,
the tangent hypothesis holds and the two projections coincide. -/
theorem claim_C5_witness :
    Real.tan (Real.pi / 4) ≠ 0 ∧
      camera_xr_proj ⟨-(Real.pi / 4), Real.pi / 4, Real.pi / 4, -(Real.pi / 4)⟩ 1 2
        = Mat4.perspective_rh (2 * (Real.pi / 4))
            (Real.tan (Real.pi / 4) / Real.tan (Real.pi / 4)) 1 2 := by
  have h : Real.tan (Real.pi / 4) ≠ 0 := by
    rw [Real.tan_pi_div_four]; exact one_ne_zero
  exact ⟨h, claim_C5_projection_convergence (Real.pi / 4) (Real.pi / 4) 1 2 h⟩

/-! ## State-machine lemmas for the frame protocol -/

theorem process_events_filter_fb :
    ∀ (evs : List XrEvent) (s : XrSt),
      (process_events s evs).calls.filter is_frame_boundary = [] := by
  intro evs
  induction evs with
  | nil => intro s; simp [process_events]
  | cons e rest ih =>
    intro s
    cases e with
    | session_state_changed st =>
      cases st <;> simp [process_events, is_frame_boundary, ih]
    | instance_loss_pending => simp [process_events]
    | events_lost n => simp [process_events, ih]
    | other_event => simp [process_events, ih]

theorem pre_frame_filter_fb (s : XrSt) (evs : List XrEvent) (fs : FrameState) :
    (pre_frame s evs fs).calls.filter is_frame_boundary
      = match (pre_frame s evs fs).result with
        | none => []
        | some _ => [XrCall.frameBegin] := by
  simp only [pre_frame]
  split_ifs <;>
    simp [process_events_filter_fb, is_frame_boundary, List.filter_append]

theorem pre_frame_filter_session (s : XrSt) (evs : List XrEvent) (fs : FrameState) :
    (pre_frame s evs fs).calls.filter is_session_call
      = (process_events s evs).calls.filter is_session_call := by
  simp only [pre_frame]
  split_ifs <;> simp [is_session_call, List.filter_append]

theorem post_frame_render_shape (s : XrSt) (fs : FrameState) (env : PostFrameEnv)
    (h : fs.should_render = true) :
    (post_frame s fs env).st.swapchain.isSome = true ∧
      (post_frame s fs env).calls.filter is_frame_boundary = [] ∧
      (post_frame s fs env).calls.filter is_session_call = [] := by
  cases hsc : s.swapchain <;> cases hl : env.left_active <;> cases hr : env.right_active <;>
    simp [post_frame, get_or_insert_swapchain, h, hsc, hl, hr,
      is_frame_boundary, is_session_call]

theorem post_queue_submit_some (s : XrSt) (fs : FrameState) (vs : List XrView)
    (h : s.swapchain.isSome = true) :
    post_queue_submit s fs vs
      = ⟨s, [XrCall.releaseImage, XrCall.frameEnd fs.predicted_display_time 1]⟩ := by
  cases hsc : s.swapchain with
  | none => rw [hsc] at h; simp at h
  | some sc => simp [post_queue_submit, hsc]

theorem post_queue_submit_filter_session (s : XrSt) (fs : FrameState) (vs : List XrView) :
    (post_queue_submit s fs vs).calls.filter is_session_call = [] := by
  cases hsc : s.swapchain <;> simp [post_queue_submit, hsc, is_session_call]

theorem frame_tick_filter_fb (s : XrSt) (e : TickEnv) :
    (frame_tick s e).calls.filter is_frame_boundary
      = match (pre_frame s e.events e.fs).result with
        | none => []
        | some fs => [XrCall.frameBegin,
            XrCall.frameEnd fs.predicted_display_time (if fs.should_render then 1 else 0)] := by
  have hpre := pre_frame_filter_fb s e.events e.fs
  cases hres : (pre_frame s e.events e.fs).result with
  | none =>
    rw [hres] at hpre
    simp only [frame_tick, hres]
    exact hpre
  | some fs =>
    rw [hres] at hpre
    cases hsr : fs.should_render with
    | false =>
      have hp := post_frame_not_render (pre_frame s e.events e.fs).st fs e.pf_env hsr
      simp only [frame_tick, hres, hsr, Bool.false_eq_true, if_false]
      rw [List.filter_append, hpre, hp]
      simp [is_frame_boundary, hsr]
    | true =>
      obtain ⟨hsw, hfb, -⟩ := post_frame_render_shape (pre_frame s e.events e.fs).st fs e.pf_env hsr
      have hq := post_queue_submit_some
        (post_frame (pre_frame s e.events e.fs).st fs e.pf_env).st fs
        (post_frame (pre_frame s e.events e.fs).st fs e.pf_env).data.views hsw
      simp only [frame_tick, hres, hsr, if_true]
      rw [List.filter_append, List.filter_append, hpre, hfb, hq]
      simp [is_frame_boundary, hsr]

theorem frame_tick_filter_session (s : XrSt) (e : TickEnv) :
    (frame_tick s e).calls.filter is_session_call
      = (process_events s e.events).calls.filter is_session_call := by
  have hpre := pre_frame_filter_session s e.events e.fs
  cases hres : (pre_frame s e.events e.fs).result with
  | none =>
    simp only [frame_tick, hres]
    exact hpre
  | some fs =>
    cases hsr : fs.should_render with
    | false =>
      have hp := post_frame_not_render (pre_frame s e.events e.fs).st fs e.pf_env hsr
      simp only [frame_tick, hres, hsr, Bool.false_eq_true, if_false]
      rw [List.filter_append, hpre, hp]
      simp [is_session_call]
    | true =>
      obtain ⟨hsw, -, hsess⟩ := post_frame_render_shape (pre_frame s e.events e.fs).st fs e.pf_env hsr
      have hq := post_queue_submit_filter_session
        (post_frame (pre_frame s e.events e.fs).st fs e.pf_env).st fs
        (post_frame (pre_frame s e.events e.fs).st fs e.pf_env).data.views
      simp only [frame_tick, hres, hsr, if_true]
      rw [List.filter_append, List.filter_append, hpre, hsess, hq]
      simp

theorem run_scenario_session_end (fs1 : FrameState) (pe1 : PostFrameEnv) :
    ∀ (frames : List (FrameState × PostFrameEnv)) (s : XrSt),
      ((run_ticks s (frames.map running_tick
          ++ [TickEnv.mk [XrEvent.session_state_changed SessionState.stopping] fs1 pe1])).calls.filter
        is_session_call) = [XrCall.sessionEnd] := by
  intro frames
  induction frames with
  | nil =>
    intro s
    simp only [List.map_nil, List.nil_append, run_ticks, List.filter_append]
    rw [frame_tick_filter_session]
    simp [process_events, is_session_call, run_ticks]
  | cons f fr ih =>
    intro s
    simp only [List.map_cons, List.cons_append, run_ticks, List.filter_append]
    rw [frame_tick_filter_session]
    simp only [running_tick]
    simp [process_events, ih]

/-! ## Claim theorems: the frame protocol -/

/-- Claim C1: over any run of frame ticks, the projection of the compositor
call trace onto frame_stream.begin and frame_stream.end calls is a perfect
alternation with exactly one end after each begin (never zero, never two); and
per tick, a successful pre_frame is followed by exactly one end before the next
pre_frame, with an empty layer list (count 0) when should_render is false
(issued by post_frame) and the single projection layer (count 1) otherwise
(issued by post_queue_submit). -/
theorem claim_C1_begin_end_pairing :
    (∀ (s : XrSt) (envs : List TickEnv),
        BeginEndPaired ((run_ticks s envs).calls.filter is_frame_boundary)) ∧
      (∀ (s : XrSt) (e : TickEnv),
        (frame_tick s e).calls.filter is_frame_boundary
          = match (pre_frame s e.events e.fs).result with
            | none => []
            | some fs => [XrCall.frameBegin,
                XrCall.frameEnd fs.predicted_display_time
                  (if fs.should_render then 1 else 0)]) := by
  constructor
  · intro s envs
    induction envs generalizing s with
    | nil =>
      simp only [run_ticks, List.filter_nil]
      exact BeginEndPaired.nil
    | cons e rest ih =>
      simp only [run_ticks, List.filter_append]
      rw [frame_tick_filter_fb s e]
      cases hres : (pre_frame s e.events e.fs).result with
      | none => simpa using ih _
      | some fs => exact BeginEndPaired.pair _ _ _ (ih _)
  · exact frame_tick_filter_fb

/-- Claim C2: in the scenario of one tick polling the Ready event, any number
of running frame ticks polling no events, and one tick polling the Stopping
event, session.begin is called exactly once and session.end exactly once,
regardless of how many frames occur in between; moreover the Ready event sets
session_running to true and the Stopping event sets it to false. -/
theorem claim_C2_session_state_machine :
    ∀ (s : XrSt) (fs0 fs1 : FrameState) (pe0 pe1 : PostFrameEnv)
      (frames : List (FrameState × PostFrameEnv)),
      List.count XrCall.sessionBegin
          (run_ticks s
            (TickEnv.mk [XrEvent.session_state_changed SessionState.ready] fs0 pe0
              :: (frames.map running_tick
                ++ [TickEnv.mk [XrEvent.session_state_changed SessionState.stopping] fs1 pe1]))).calls
        = 1 ∧
      List.count XrCall.sessionEnd
          (run_ticks s
            (TickEnv.mk [XrEvent.session_state_changed SessionState.ready] fs0 pe0
              :: (frames.map running_tick
                ++ [TickEnv.mk [XrEvent.session_state_changed SessionState.stopping] fs1 pe1]))).calls
        = 1 ∧
      (process_events s [XrEvent.session_state_changed SessionState.ready]).st.session_running
        = true ∧
      (process_events s [XrEvent.session_state_changed SessionState.stopping]).st.session_running
        = false := by
  intro s fs0 fs1 pe0 pe1 frames
  have hfilter :
      ((run_ticks s
        (TickEnv.mk [XrEvent.session_state_changed SessionState.ready] fs0 pe0
          :: (frames.map running_tick
            ++ [TickEnv.mk [XrEvent.session_state_changed SessionState.stopping] fs1 pe1]))).calls.filter
        is_session_call) = [XrCall.sessionBegin, XrCall.sessionEnd] := by
    simp only [run_ticks, List.filter_append]
    rw [frame_tick_filter_session]
    rw [run_scenario_session_end fs1 pe1 frames]
    simp [process_events, is_session_call]
  refine ⟨?_, ?_, ?_, ?_⟩
  · rw [← List.count_filter (show is_session_call XrCall.sessionBegin = true from rfl), hfilter]
    decide
  · rw [← List.count_filter (show is_session_call XrCall.sessionEnd = true from rfl), hfilter]
    decide
  · simp [process_events]
  · simp [process_events]

/-- Claim C3: when the frame state says should_render is false, post_frame
immediately ends the frame with the predicted display time and an empty layer
list (layer count 0), returns the default PostFrameData (no views, no hand
poses), leaves the state unchanged (no swapchain creation), and issues no other
call (no action sync, no view or hand location, no image acquisition, no blit). -/
theorem claim_C3_early_end (s : XrSt) (fs : FrameState) (env : PostFrameEnv)
    (h : fs.should_render = false) :
    post_frame s fs env
      = ⟨s, [XrCall.frameEnd fs.predicted_display_time 0], PostFrameData.default⟩ :=
  post_frame_not_render s fs env h

/-- Claim C3 witness: a concrete non-rendering frame state at display time 7. -/
theorem claim_C3_early_end_witness :
    (FrameState.mk 7 false).should_render = false ∧
      post_frame ⟨true, 4, 3, none⟩ ⟨7, false⟩
          ⟨false, false, Posef.identity, Posef.identity, [], 0⟩
        = ⟨⟨true, 4, 3, none⟩, [XrCall.frameEnd 7 0], PostFrameData.default⟩ :=
  ⟨rfl, claim_C3_early_end ⟨true, 4, 3, none⟩ ⟨7, false⟩
    ⟨false, false, Posef.identity, Posef.identity, [], 0⟩ rfl⟩

/-- Claim C8: post_frame reports a hand pose exactly when the frame is rendered
and that hand's pose action is active, and it locates the hand's space exactly
under the same condition; an inactive action yields None and no space location,
so its pose can never drive a scene transform. -/
theorem claim_C8_hand_pose_gating :
    ∀ (s : XrSt) (fs : FrameState) (env : PostFrameEnv),
      ((post_frame s fs env).data.left_hand
          = if fs.should_render && env.left_active
            then some (openxr_pose_to_glam env.left_pose) else none) ∧
        ((post_frame s fs env).data.right_hand
          = if fs.should_render && env.right_active
            then some (openxr_pose_to_glam env.right_pose) else none) ∧
        ((XrCall.locateSpace Hand.left ∈ (post_frame s fs env).calls)
          ↔ (fs.should_render && env.left_active) = true) ∧
        ((XrCall.locateSpace Hand.right ∈ (post_frame s fs env).calls)
          ↔ (fs.should_render && env.right_active) = true) := by
  intro s fs env
  cases hsr : fs.should_render with
  | false =>
    simp [post_frame_not_render s fs env hsr, PostFrameData.default, hsr]
  | true =>
    cases hsc : s.swapchain <;> cases hl : env.left_active <;> cases hr : env.right_active <;>
      simp [post_frame, get_or_insert_swapchain, hsr, hsc, hl, hr]

end WgpuXr
